import Mathlib

/-!
Shallow embedding of `aircraft_monitor.py`.

Python floats are modelled as real numbers; where the source works with
`float("inf")` (missing altitude, the CPA result) the value lives in `EReal`
with `⊤` standing for `+inf`.  Dictionary fields accessed via `.get(key,
default)` become `Option` fields read with `Option.getD`.
-/

open Real

open scoped Classical

namespace AircraftMonitor

/-- The `position` sub-dictionary of a flight record.  `latitude` and
`longitude` are always present; `altitude`, `ground_speed` and `heading` are
accessed with `.get` and may be absent. -/
structure Position where
  latitude : ℝ
  longitude : ℝ
  altitude : Option ℝ := none
  ground_speed : Option ℝ := none
  heading : Option ℝ := none

/-- A flight record as consumed by the monitor: the identifier fields read
with `flight.get(...)` and the `position` sub-dictionary. -/
structure Flight where
  number : Option String := none
  callsign : Option String := none
  icao_24bit : Option String := none
  position : Position

/-- The threshold configuration the source loads from environment variables
at import time (here an explicit record; the numeric defaults of the source
are `default_config`). -/
structure Config where
  low_altitude_threshold_m : ℝ
  alert_distance_threshold_km : ℝ
  alert_time_threshold_min : ℝ
  alert_altitude_threshold_m : ℝ

/-- The source's fallback values: `LOW_ALTITUDE_THRESHOLD_M = 1000`,
`ALERT_DISTANCE_THRESHOLD_KM = 50`, `ALERT_TIME_THRESHOLD_MIN = 30`,
`ALERT_ALTITUDE_THRESHOLD_M = 1000`. -/
def default_config : Config :=
  { low_altitude_threshold_m := 1000
    alert_distance_threshold_km := 50
    alert_time_threshold_min := 30
    alert_altitude_threshold_m := 1000 }

/-- `feet_to_meters(feet)`: convert altitude from feet to meters. -/
noncomputable def feet_to_meters (feet : ℝ) : ℝ := feet * 0.3048

/-- The two lines shared by `should_send_alert` and `is_low_altitude`:
`altitude_ft = flight["position"].get("altitude", float("inf"))` followed by
`altitude_m = feet_to_meters(altitude_ft)`.  A missing altitude yields
`float("inf")`, and `inf * 0.3048 = inf`, hence `⊤`. -/
noncomputable def altitude_m_of (pos : Position) : EReal :=
  match pos.altitude with
  | some a => ((feet_to_meters a : ℝ) : EReal)
  | none => ⊤

/-- `deg2rad(deg)`: `deg * math.pi / 180`. -/
noncomputable def deg2rad (deg : ℝ) : ℝ := deg * Real.pi / 180

/-- `calculate_distance(flight, lat, lon)`: 3D distance in km from `(lat,
lon)` at the ground to the flight, flat-Earth approximation at 111 km per
degree; a missing altitude defaults to `0` here. -/
noncomputable def calculate_distance (flight : Flight) (lat lon : ℝ) : ℝ :=
  let pos := flight.position
  let alt_m := feet_to_meters (pos.altitude.getD 0)
  let dx_km := (pos.latitude - lat) * 111
  let dy_km := (pos.longitude - lon) * 111
  let horizontal_distance_km := Real.sqrt (dx_km ^ 2 + dy_km ^ 2)
  let horizontal_distance_m := horizontal_distance_km * 1000
  let distance_3d_m := Real.sqrt (horizontal_distance_m ^ 2 + alt_m ^ 2)
  distance_3d_m / 1000

/-- `time_until_closest(flight, lat, lon)`: minutes until the closest point
of approach to `(lat, lon)`; `float("inf")` (here `⊤`) when the speed is `0`,
when `speed_sq` vanishes, or when `t_cpa` is negative.  The final
`return t_cpa * 60` is multiplication in `EReal`, matching `inf * 60 = inf`. -/
noncomputable def time_until_closest (flight : Flight) (lat lon : ℝ) : EReal :=
  let pos := flight.position
  let lat0 := pos.latitude
  let lon0 := pos.longitude
  let speed_kmh := pos.ground_speed.getD 0
  let heading_deg := pos.heading.getD 0
  if speed_kmh = 0 then ⊤ else
  let heading_rad := deg2rad heading_deg
  let vx := Real.sin heading_rad * speed_kmh
  let vy := Real.cos heading_rad * speed_kmh
  let dx := (lat0 - lat) * 111
  let dy := (lon0 - lon) * 111
  let dot := dx * vx + dy * vy
  let speed_sq := vx ^ 2 + vy ^ 2
  let t_cpa : EReal := if speed_sq ≠ 0 then ((-dot / speed_sq : ℝ) : EReal) else ⊤
  if t_cpa < 0 then ⊤ else t_cpa * ((60 : ℝ) : EReal)

/-- `is_low_altitude(flight)`: `altitude_m < LOW_ALTITUDE_THRESHOLD_M`, with
a missing altitude read as `float("inf")`. -/
noncomputable def is_low_altitude (cfg : Config) (flight : Flight) : Prop :=
  altitude_m_of flight.position < ((cfg.low_altitude_threshold_m : ℝ) : EReal)

/-- `should_send_alert(flight, lat, lon)`: the conjunction of the three
threshold comparisons, with a missing altitude read as `float("inf")`. -/
noncomputable def should_send_alert (cfg : Config) (flight : Flight) (lat lon : ℝ) : Prop :=
  let altitude_m := altitude_m_of flight.position
  let distance_km := calculate_distance flight lat lon
  let time_until_closest_min := time_until_closest flight lat lon
  altitude_m ≤ ((cfg.alert_altitude_threshold_m : ℝ) : EReal) ∧
  distance_km ≤ cfg.alert_distance_threshold_km ∧
  time_until_closest_min ≤ ((cfg.alert_time_threshold_min : ℝ) : EReal)

/-- Python truthiness of an optional string: `None` and `""` are falsy. -/
def pyTruthy : Option String → Bool
  | none => false
  | some s => s ≠ ""

/-- The filter of the `flight_id` generator expression:
`v and v != "N/A"`. -/
def keepLabel (v : Option String) : Bool :=
  pyTruthy v && v ≠ some "N/A"

/-- The `flight_id` computation of the monitor loop:
`next((v for v in [number, callsign, icao_24bit] if v and v != "N/A"), "N/A")`. -/
def flight_id_of (number callsign icao_24bit : Option String) : String :=
  match [number, callsign, icao_24bit].find? keepLabel with
  | some (some s) => s
  | _ => "N/A"

/-- The spec's worked example, first variant: flight at latitude 1,
longitude 0, altitude 0 ft, ground speed 500 km/h, heading 180°. -/
noncomputable def ex_south_flight : Flight :=
  { position :=
      { latitude := 1, longitude := 0, altitude := some 0,
        ground_speed := some 500, heading := some 180 } }

/-- The spec's worked example, second variant: same position and speed,
heading 0°. -/
noncomputable def ex_north_flight : Flight :=
  { position :=
      { latitude := 1, longitude := 0, altitude := some 0,
        ground_speed := some 500, heading := some 0 } }

lemma deg2rad_180 : deg2rad 180 = Real.pi := by
  rw [deg2rad, mul_comm, mul_div_assoc]
  norm_num

lemma deg2rad_0 : deg2rad 0 = 0 := by
  simp [deg2rad]

lemma time_ex_south : time_until_closest ex_south_flight 0 0 = ((0 : ℝ) : EReal) := by
  simp only [time_until_closest, ex_south_flight, Option.getD_some]
  rw [if_neg (by norm_num)]
  simp only [deg2rad_180, Real.sin_pi, Real.cos_pi]
  norm_num

lemma time_ex_north : time_until_closest ex_north_flight 0 0 = ((0 : ℝ) : EReal) := by
  simp only [time_until_closest, ex_north_flight, Option.getD_some]
  rw [if_neg (by norm_num)]
  simp only [deg2rad_0, Real.sin_zero, Real.cos_zero]
  norm_num

lemma distance_ex_south : calculate_distance ex_south_flight 0 0 = 111 := by
  simp only [calculate_distance, ex_south_flight, Option.getD_some, feet_to_meters]
  norm_num
  rw [show (12321 : ℝ) = 111 ^ 2 by norm_num, Real.sqrt_sq (by norm_num)]

/-- C1: the claim predicts `calculate_distance ≈ 111` and `time_until_closest
≈ 13.3` for the southbound worked example.  The distance is indeed `111`, but
the returned time is `0`, more than `13` away from the predicted
`111 / 500 * 60 = 13.32`: in the code's dot product the latitude offset is
paired with `sin(heading) * speed`, which vanishes at heading 180°, so
`t_cpa = 0`. -/
theorem c1_worked_example_counterexample :
    calculate_distance ex_south_flight 0 0 = 111 ∧
    time_until_closest ex_south_flight 0 0 = ((0 : ℝ) : EReal) ∧
    ¬ |(0 : ℝ) - 111 / 500 * 60| < 13 := by
  refine ⟨distance_ex_south, time_ex_south, ?_⟩
  rw [zero_sub, abs_neg, abs_of_nonneg (by norm_num)]
  norm_num

/-- C1 (amended): for the southbound worked example `calculate_distance`
returns exactly `111` km and `time_until_closest` returns `0` minutes. -/
theorem c1_worked_example_actual :
    calculate_distance ex_south_flight 0 0 = 111 ∧
    time_until_closest ex_south_flight 0 0 = ((0 : ℝ) : EReal) :=
  ⟨distance_ex_south, time_ex_south⟩

/-- C2: the claim predicts `time_until_closest = +inf` for the northbound
worked example; in fact the result is not `⊤`: the dot product vanishes, so
`t_cpa = 0`, which is not negative, and `0 * 60 = 0` is returned. -/
theorem c2_worked_example_counterexample :
    time_until_closest ex_north_flight 0 0 ≠ ⊤ := by
  rw [time_ex_north]
  exact EReal.coe_ne_top 0

/-- C2 (amended): for the northbound worked example `time_until_closest`
returns `0` minutes (the computed `t_cpa` is `0`, not negative). -/
theorem c2_worked_example_actual :
    time_until_closest ex_north_flight 0 0 = ((0 : ℝ) : EReal) :=
  time_ex_north

/-- A label value is usable for `flight_id` when it is present, non-empty
and different from the string `N/A`. -/
def usableLabel (v : Option String) : Prop :=
  ∃ s, v = some s ∧ s ≠ "" ∧ s ≠ "N/A"

lemma keepLabel_iff (v : Option String) : keepLabel v = true ↔ usableLabel v := by
  cases v with
  | none => simp [keepLabel, pyTruthy, usableLabel]
  | some s => simp [keepLabel, pyTruthy, usableLabel]

/-- C3: the fallback label is the string `N/A`, not `unknown`: a record with
all three identifier fields absent resolves to `N/A`. -/
theorem c3_fallback_counterexample :
    flight_id_of none none none ≠ "unknown" := by
  decide

/-- C3 (amended): `flight_id` is the first value among `number`, `callsign`,
`icao_24bit` that is present, non-empty and distinct from `N/A`; when none
qualifies, the literal `N/A` is returned. -/
theorem c3_flight_id_resolution (number callsign icao_24bit : Option String) :
    flight_id_of number callsign icao_24bit =
      if usableLabel number then number.getD "N/A"
      else if usableLabel callsign then callsign.getD "N/A"
      else if usableLabel icao_24bit then icao_24bit.getD "N/A"
      else "N/A" := by
  by_cases h1 : usableLabel number
  · obtain ⟨s, rfl, -, -⟩ := id h1
    rw [flight_id_of, List.find?_cons_of_pos _ ((keepLabel_iff _).mpr h1), if_pos h1]
    rfl
  · rw [if_neg h1]
    have k1 : keepLabel number = false := by
      rw [← Bool.not_eq_true, keepLabel_iff]
      exact h1
    by_cases h2 : usableLabel callsign
    · obtain ⟨s, rfl, -, -⟩ := id h2
      rw [flight_id_of, List.find?_cons_of_neg _ (by simp [k1]),
        List.find?_cons_of_pos _ ((keepLabel_iff _).mpr h2), if_pos h2]
      rfl
    · rw [if_neg h2]
      have k2 : keepLabel callsign = false := by
        rw [← Bool.not_eq_true, keepLabel_iff]
        exact h2
      by_cases h3 : usableLabel icao_24bit
      · obtain ⟨s, rfl, -, -⟩ := id h3
        rw [flight_id_of, List.find?_cons_of_neg _ (by simp [k1]),
          List.find?_cons_of_neg _ (by simp [k2]),
          List.find?_cons_of_pos _ ((keepLabel_iff _).mpr h3), if_pos h3]
        rfl
      · have k3 : keepLabel icao_24bit = false := by
          rw [← Bool.not_eq_true, keepLabel_iff]
          exact h3
        rw [if_neg h3, flight_id_of, List.find?_cons_of_neg _ (by simp [k1]),
          List.find?_cons_of_neg _ (by simp [k2]),
          List.find?_cons_of_neg _ (by simp [k3])]
        rfl

/-- C4: `should_send_alert` holds exactly when all three threshold
comparisons hold, and fails as soon as any single one fails. -/
theorem c4_should_send_alert_iff (cfg : Config) (flight : Flight) (lat lon : ℝ) :
    (should_send_alert cfg flight lat lon ↔
      (altitude_m_of flight.position ≤ ((cfg.alert_altitude_threshold_m : ℝ) : EReal) ∧
       calculate_distance flight lat lon ≤ cfg.alert_distance_threshold_km ∧
       time_until_closest flight lat lon ≤ ((cfg.alert_time_threshold_min : ℝ) : EReal))) ∧
    ((¬ altitude_m_of flight.position ≤ ((cfg.alert_altitude_threshold_m : ℝ) : EReal) ∨
      ¬ calculate_distance flight lat lon ≤ cfg.alert_distance_threshold_km ∨
      ¬ time_until_closest flight lat lon ≤ ((cfg.alert_time_threshold_min : ℝ) : EReal)) →
      ¬ should_send_alert cfg flight lat lon) := by
  constructor
  · exact Iff.rfl
  · rintro (h | h | h) ⟨h1, h2, h3⟩ <;> [exact h h1; exact h h2; exact h h3]

/-- C4 witness: the three default thresholds and a flight with no recorded
altitude, where the altitude condition fails. -/
theorem c4_should_send_alert_iff_witness :
    (should_send_alert default_config ex_south_flight 0 0 ↔
      (altitude_m_of ex_south_flight.position ≤
        ((default_config.alert_altitude_threshold_m : ℝ) : EReal) ∧
       calculate_distance ex_south_flight 0 0 ≤ default_config.alert_distance_threshold_km ∧
       time_until_closest ex_south_flight 0 0 ≤
        ((default_config.alert_time_threshold_min : ℝ) : EReal))) ∧
    ((¬ altitude_m_of ex_south_flight.position ≤
        ((default_config.alert_altitude_threshold_m : ℝ) : EReal) ∨
      ¬ calculate_distance ex_south_flight 0 0 ≤ default_config.alert_distance_threshold_km ∨
      ¬ time_until_closest ex_south_flight 0 0 ≤
        ((default_config.alert_time_threshold_min : ℝ) : EReal)) →
      ¬ should_send_alert default_config ex_south_flight 0 0) :=
  c4_should_send_alert_iff default_config ex_south_flight 0 0

/-- C5: a flight whose position carries no altitude is never flagged as low
altitude and never triggers an alert: the missing altitude reads as `+inf`,
which defeats both threshold comparisons. -/
theorem c5_missing_altitude (cfg : Config) (flight : Flight) (lat lon : ℝ)
    (h : flight.position.altitude = none) :
    ¬ is_low_altitude cfg flight ∧ ¬ should_send_alert cfg flight lat lon := by
  have halt : altitude_m_of flight.position = ⊤ := by
    simp only [altitude_m_of, h]
  constructor
  · rw [is_low_altitude, halt]
    exact not_top_lt
  · rw [should_send_alert]
    simp only [halt]
    rintro ⟨h1, -, -⟩
    exact (EReal.coe_lt_top _).not_le h1

/-- A flight record whose position has neither altitude nor speed nor
heading. -/
noncomputable def bare_flight : Flight :=
  { position := { latitude := 0, longitude := 0 } }

/-- C5 witness: the bare flight at the observer's position, default
thresholds. -/
theorem c5_missing_altitude_witness :
    bare_flight.position.altitude = none ∧
      (¬ is_low_altitude default_config bare_flight ∧
        ¬ should_send_alert default_config bare_flight 0 0) :=
  ⟨rfl, c5_missing_altitude default_config bare_flight 0 0 rfl⟩

/-- C6: a flight with ground speed `0` or with no recorded ground speed
yields `time_until_closest = +inf`; the zero-speed branch returns before the
division, so no division by zero is attempted. -/
theorem c6_zero_speed (flight : Flight) (lat lon : ℝ)
    (h : flight.position.ground_speed = none ∨ flight.position.ground_speed = some 0) :
    time_until_closest flight lat lon = ⊤ := by
  have hs : flight.position.ground_speed.getD 0 = 0 := by
    rcases h with h | h <;> simp [h]
  simp only [time_until_closest]
  rw [if_pos hs]

/-- C6 witness: the bare flight, whose ground speed is absent. -/
theorem c6_zero_speed_witness :
    (bare_flight.position.ground_speed = none ∨
      bare_flight.position.ground_speed = some 0) ∧
      time_until_closest bare_flight 0 0 = ⊤ :=
  ⟨Or.inl rfl, c6_zero_speed bare_flight 0 0 (Or.inl rfl)⟩

/-- C7: with a nonzero ground speed, `time_until_closest` returns `+inf`
exactly when `t_cpa = -(dx*vx + dy*vy) / (vx² + vy²)` is negative, and
`t_cpa * 60` otherwise (the `speed_sq = 0` branch is unreachable because
`vx² + vy² = speed²`). -/
theorem c7_tcpa_formula (flight : Flight) (lat lon : ℝ)
    (h : flight.position.ground_speed.getD 0 ≠ 0) :
    time_until_closest flight lat lon =
      (let pos := flight.position
       let speed_kmh := pos.ground_speed.getD 0
       let heading_rad := deg2rad (pos.heading.getD 0)
       let vx := Real.sin heading_rad * speed_kmh
       let vy := Real.cos heading_rad * speed_kmh
       let dx := (pos.latitude - lat) * 111
       let dy := (pos.longitude - lon) * 111
       let t_cpa := -(dx * vx + dy * vy) / (vx ^ 2 + vy ^ 2)
       if t_cpa < 0 then (⊤ : EReal) else ((t_cpa * 60 : ℝ) : EReal)) := by
  simp only [time_until_closest]
  rw [if_neg h]
  set s := flight.position.ground_speed.getD 0 with hs
  set θ := deg2rad (flight.position.heading.getD 0) with hθ
  set dx := (flight.position.latitude - lat) * 111 with hdx
  set dy := (flight.position.longitude - lon) * 111 with hdy
  have hss : (Real.sin θ * s) ^ 2 + (Real.cos θ * s) ^ 2 = s ^ 2 := by
    have h2 := Real.sin_sq_add_cos_sq θ
    nlinarith [h2]
  have hssne : (Real.sin θ * s) ^ 2 + (Real.cos θ * s) ^ 2 ≠ 0 := by
    rw [hss]
    exact pow_ne_zero 2 h
  rw [if_pos hssne]
  set t := -(dx * Real.sin θ * s + dy * Real.cos θ * s) / ((Real.sin θ * s) ^ 2 + (Real.cos θ * s) ^ 2) with ht
  by_cases hneg : -(dx * (Real.sin θ * s) + dy * (Real.cos θ * s)) / ((Real.sin θ * s) ^ 2 + (Real.cos θ * s) ^ 2) < 0
  · rw [if_pos (EReal.coe_neg'.mpr hneg), if_pos hneg]
  · rw [if_neg (fun hc => hneg (EReal.coe_neg'.mp hc)), if_neg hneg,
      ← EReal.coe_mul]

/-- C7 witness: the northbound worked-example flight, whose ground speed is
`500`. -/
theorem c7_tcpa_formula_witness :
    ex_north_flight.position.ground_speed.getD 0 ≠ 0 ∧
      time_until_closest ex_north_flight 0 0 =
        (let pos := ex_north_flight.position
         let speed_kmh := pos.ground_speed.getD 0
         let heading_rad := deg2rad (pos.heading.getD 0)
         let vx := Real.sin heading_rad * speed_kmh
         let vy := Real.cos heading_rad * speed_kmh
         let dx := (pos.latitude - 0) * 111
         let dy := (pos.longitude - 0) * 111
         let t_cpa := -(dx * vx + dy * vy) / (vx ^ 2 + vy ^ 2)
         if t_cpa < 0 then (⊤ : EReal) else ((t_cpa * 60 : ℝ) : EReal)) :=
  ⟨by simp [ex_north_flight], c7_tcpa_formula ex_north_flight 0 0 (by simp [ex_north_flight])⟩

/-- C8: `calculate_distance` vanishes exactly when the flight is at the
observer's horizontal position and its altitude (defaulting to `0` when
absent) converts to `0` meters. -/
theorem c8_distance_zero_iff (flight : Flight) (lat lon : ℝ) :
    calculate_distance flight lat lon = 0 ↔
      (flight.position.latitude = lat ∧ flight.position.longitude = lon ∧
        feet_to_meters (flight.position.altitude.getD 0) = 0) := by
  simp only [calculate_distance]
  set a := feet_to_meters (flight.position.altitude.getD 0) with ha
  constructor
  · intro h
    have h0 : Real.sqrt ((Real.sqrt (((flight.position.latitude - lat) * 111) ^ 2 +
        ((flight.position.longitude - lon) * 111) ^ 2) * 1000) ^ 2 + a ^ 2) = 0 := by
      have := div_eq_zero_iff.mp h
      rcases this with h' | h'
      · exact h'
      · norm_num at h'
    have hsum : (Real.sqrt (((flight.position.latitude - lat) * 111) ^ 2 +
        ((flight.position.longitude - lon) * 111) ^ 2) * 1000) ^ 2 + a ^ 2 ≤ 0 :=
      Real.sqrt_eq_zero'.mp h0
    have hha : a = 0 := by
      nlinarith [sq_nonneg (Real.sqrt (((flight.position.latitude - lat) * 111) ^ 2 +
        ((flight.position.longitude - lon) * 111) ^ 2) * 1000), sq_nonneg a]
    have hh : Real.sqrt (((flight.position.latitude - lat) * 111) ^ 2 +
        ((flight.position.longitude - lon) * 111) ^ 2) = 0 := by
      nlinarith [sq_nonneg (Real.sqrt (((flight.position.latitude - lat) * 111) ^ 2 +
        ((flight.position.longitude - lon) * 111) ^ 2) * 1000), sq_nonneg a,
        Real.sqrt_nonneg (((flight.position.latitude - lat) * 111) ^ 2 +
        ((flight.position.longitude - lon) * 111) ^ 2)]
    have hxy : ((flight.position.latitude - lat) * 111) ^ 2 +
        ((flight.position.longitude - lon) * 111) ^ 2 ≤ 0 :=
      Real.sqrt_eq_zero'.mp hh
    refine ⟨?_, ?_, hha⟩
    · have : (flight.position.latitude - lat) * 111 = 0 := by
        nlinarith [sq_nonneg ((flight.position.latitude - lat) * 111),
          sq_nonneg ((flight.position.longitude - lon) * 111)]
      have := mul_eq_zero.mp this
      rcases this with h' | h'
      · linarith [sub_eq_zero.mp h']
      · norm_num at h'
    · have : (flight.position.longitude - lon) * 111 = 0 := by
        nlinarith [sq_nonneg ((flight.position.latitude - lat) * 111),
          sq_nonneg ((flight.position.longitude - lon) * 111)]
      have := mul_eq_zero.mp this
      rcases this with h' | h'
      · linarith [sub_eq_zero.mp h']
      · norm_num at h'
  · rintro ⟨h1, h2, h3⟩
    rw [h1, h2, h3]
    norm_num

/-- The values interpolated into the monitor's alert message; `none` for the
altitude stands for the `"unknown"` placeholder used when the altitude field
is absent. -/
structure AlertMessage where
  flight_id : String
  altitude_m : Option ℝ
  distance_km : ℝ
  minutes_until_closest : EReal

/-- The alert message the monitor loop builds for a low-altitude target
flight. -/
noncomputable def build_alert_message (flight : Flight) (lat lon : ℝ) : AlertMessage :=
  { flight_id := flight_id_of flight.number flight.callsign flight.icao_24bit
    altitude_m := flight.position.altitude.map feet_to_meters
    distance_km := calculate_distance flight lat lon
    minutes_until_closest := time_until_closest flight lat lon }

/-- The per-flight body of the monitor loop (source lines 150-177), with the
`alert_message` local threaded explicitly: the variable is (re)assigned only
inside the `is_low_altitude` branch, and `send_email_alert` reads whatever
value it happens to hold.  The result lists, per email sent, the value bound
to `alert_message` at the moment of the send; `none` means the name was
never assigned (a `NameError` in the source). -/
noncomputable def process_target_flights (cfg : Config) (lat lon : ℝ) :
    List Flight → Option AlertMessage → List (Option AlertMessage)
  | [], _ => []
  | flight :: rest, alert_message =>
    let alert_message' :=
      if is_low_altitude cfg flight then some (build_alert_message flight lat lon)
      else alert_message
    let sends := if should_send_alert cfg flight lat lon then [alert_message'] else []
    sends ++ process_target_flights cfg lat lon rest alert_message'

/-- A flight sitting exactly at the observer's position at an altitude of
exactly 1000 m (so not low for the default strict `<` threshold, yet within
the default `≤` alert threshold), slowly heading north. -/
noncomputable def boundary_flight : Flight :=
  { position :=
      { latitude := 0, longitude := 0, altitude := some (1000 / 0.3048),
        ground_speed := some 1, heading := some 0 } }

lemma boundary_altitude : altitude_m_of boundary_flight.position = ((1000 : ℝ) : EReal) := by
  simp only [altitude_m_of, boundary_flight, feet_to_meters]
  norm_num

lemma boundary_not_low : ¬ is_low_altitude default_config boundary_flight := by
  rw [is_low_altitude, boundary_altitude]
  simp [default_config]

lemma boundary_distance : calculate_distance boundary_flight 0 0 = 1 := by
  simp only [calculate_distance, boundary_flight, Option.getD_some, feet_to_meters]
  norm_num
  rw [show (1000000 : ℝ) = 1000 ^ 2 by norm_num, Real.sqrt_sq (by norm_num)]
  norm_num

lemma boundary_time : time_until_closest boundary_flight 0 0 = ((0 : ℝ) : EReal) := by
  simp only [time_until_closest, boundary_flight, Option.getD_some]
  rw [if_neg (by norm_num)]
  simp only [deg2rad_0, Real.sin_zero, Real.cos_zero]
  norm_num

lemma boundary_alert : should_send_alert default_config boundary_flight 0 0 := by
  rw [should_send_alert]
  refine ⟨?_, ?_, ?_⟩
  · rw [boundary_altitude]
    simp [default_config]
  · rw [boundary_distance]
    simp [default_config]
  · rw [boundary_time]
    simp only [default_config]
    rw [EReal.coe_le_coe_iff]
    norm_num

/-- C9: a poll cycle whose first (and only) target flight passes
`should_send_alert` but fails `is_low_altitude` sends an email while
`alert_message` was never assigned: the recorded body binding is `none`
(a `NameError` in the source, or a stale message from an earlier flight had
one been built). -/
theorem c9_unbound_alert_message :
    should_send_alert default_config boundary_flight 0 0 ∧
    ¬ is_low_altitude default_config boundary_flight ∧
    process_target_flights default_config 0 0 [boundary_flight] none = [none] := by
  refine ⟨boundary_alert, boundary_not_low, ?_⟩
  rw [process_target_flights]
  rw [if_neg boundary_not_low, if_pos boundary_alert, process_target_flights]
  rfl

/-- C10: `time_until_closest` never returns a negative value: every result
is either `+inf` or a nonnegative real. -/
theorem c10_time_nonneg (flight : Flight) (lat lon : ℝ) :
    time_until_closest flight lat lon = ⊤ ∨
      ∃ r : ℝ, time_until_closest flight lat lon = (r : EReal) ∧ 0 ≤ r := by
  simp only [time_until_closest]
  by_cases h0 : flight.position.ground_speed.getD 0 = 0
  · rw [if_pos h0]
    exact Or.inl rfl
  rw [if_neg h0]
  by_cases h1 : (Real.sin (deg2rad (flight.position.heading.getD 0)) *
      flight.position.ground_speed.getD 0) ^ 2 +
      (Real.cos (deg2rad (flight.position.heading.getD 0)) *
      flight.position.ground_speed.getD 0) ^ 2 ≠ 0
  · rw [if_pos h1]
    set v := -((flight.position.latitude - lat) * 111 *
        (Real.sin (deg2rad (flight.position.heading.getD 0)) *
          flight.position.ground_speed.getD 0) +
        (flight.position.longitude - lon) * 111 *
        (Real.cos (deg2rad (flight.position.heading.getD 0)) *
          flight.position.ground_speed.getD 0)) /
        ((Real.sin (deg2rad (flight.position.heading.getD 0)) *
          flight.position.ground_speed.getD 0) ^ 2 +
        (Real.cos (deg2rad (flight.position.heading.getD 0)) *
          flight.position.ground_speed.getD 0) ^ 2) with hv
    by_cases h2 : ((v : ℝ) : EReal) < 0
    · rw [if_pos h2]
      exact Or.inl rfl
    · rw [if_neg h2]
      refine Or.inr ⟨v * 60, (EReal.coe_mul v 60).symm, ?_⟩
      have hv0 : (0 : ℝ) ≤ v := le_of_not_lt (fun hc => h2 (EReal.coe_neg'.mpr hc))
      nlinarith
  · rw [if_neg h1]
    rw [if_neg (by exact not_top_lt)]
    exact Or.inl (EReal.top_mul_coe_of_pos (by norm_num))

end AircraftMonitor
